import Mathlib

/-!
Verification development for the VibeBot repository (src/bot.py).

The file shallowly embeds the request pipeline of src/bot.py: the
per-user session set by `handle_message`, the button dispatch of
`button_handler`, and the probe / pre-size-check / download (with one
worst-quality fallback) / post-size-check / upload / cleanup sequence of
`download_and_send_media`, together with `main`.

External effects (the yt-dlp extraction engine, the filesystem, the
Telegram transport) are captured by an explicit environment record
`Env` describing the outcome of each external call made during one run;
the embedded pipeline is a pure function of that environment.
-/

namespace VibeBot

/-- `MAX_FILE_SIZE` from src/bot.py line 22: the 50 MiB upload ceiling. -/
def MAX_FILE_SIZE : Nat := 50 * 1024 * 1024

/-- `DOWNLOAD_DIR` from src/bot.py line 21. -/
def DOWNLOAD_DIR : String := "downloads"

/-- Python truthiness of an optional string: `None` and the empty string
are falsy (used by `if not url:` and `if not TELEGRAM_BOT_TOKEN:`). -/
def pyTruthyStr : Option String → Bool
  | none => false
  | some s => !(s == "")

/-- Python truthiness of an optional integer: `None` and `0` are falsy. -/
def sizeTruthy : Option Nat → Bool
  | none => false
  | some n => !(n == 0)

/-- Python `a or b` on optional integers, as in
`info.get(filesize) or info.get(filesize_approx)` (line 217): the first
operand if it is truthy, otherwise the second. -/
def pyOrSize (a b : Option Nat) : Option Nat :=
  if sizeTruthy a then a else b

/-- Character-list prefix test (helper for the Python `in` operator). -/
def isPrefixChars : List Char → List Char → Bool
  | [], _ => true
  | _ :: _, [] => false
  | a :: as, b :: bs => a == b && isPrefixChars as bs

/-- Character-list substring test (helper for the Python `in` operator). -/
def containsChars (pat : List Char) : List Char → Bool
  | [] => isPrefixChars pat []
  | b :: rest => isPrefixChars pat (b :: rest) || containsChars pat rest

/-- The Python substring operator `pat in s`. -/
def strContains (pat s : String) : Bool :=
  containsChars pat.toList s.toList

/-- Python `str.strip()`: drop leading and trailing whitespace
(src/bot.py line 60). -/
def pyStrip (s : String) : String :=
  ⟨((s.toList.dropWhile Char.isWhitespace).reverse.dropWhile
      Char.isWhitespace).reverse⟩

/-- Python slice `s[:n]` by characters. -/
def takeChars (n : Nat) (s : String) : String :=
  ⟨s.toList.take n⟩

/-- `youtube_domains` from src/bot.py line 56. -/
def youtube_domains : List String :=
  ["youtube.com", "youtu.be", "www.youtube.com", "m.youtube.com"]

/-- `is_valid_youtube_url` from src/bot.py lines 55-57: the text is
accepted when any known domain occurs in it as a substring. -/
def is_valid_youtube_url (url : String) : Bool :=
  youtube_domains.any (fun d => strContains d url)

/-- Round `num / den` to the nearest integer, ties to even
(the rounding used by Python float formatting). -/
def roundHalfEven (num den : Nat) : Nat :=
  if 2 * (num % den) < den then num / den
  else if den < 2 * (num % den) then num / den + 1
  else if num / den % 2 = 0 then num / den else num / den + 1

/-- The Python format expression `f"(sz/1024/1024):.1f"` applied to a byte
count: the size in MiB rendered with exactly one fractional digit.
Modelled with exact rational round-half-even; this agrees with the
double-precision evaluation in src/bot.py at every input used in this
development (all are exact multiples of a power of two). -/
def formatMB1 (bytes : Nat) : String :=
  toString (roundHalfEven (bytes * 10) (1024 * 1024) / 10) ++ "." ++
    toString (roundHalfEven (bytes * 10) (1024 * 1024) % 10)

/-- The single extraction-failure message of src/bot.py line 209, shown
whichever cause (privacy, age restriction, regional unavailability) made
both extraction attempts fail. -/
def probeFailMsg : String :=
  "❌ Cannot download this video. It might be private, age-restricted, or unavailable in this region."

/-- The pre-download size-rejection message of src/bot.py line 221. -/
def preSizeMsg (filesize : Nat) : String :=
  "❌ File too large (" ++ formatMB1 filesize ++ " MB). Max 50 MB."

/-- The missing-file message of src/bot.py line 250. -/
def notSupportedMsg : String :=
  "❌ Download failed. The video format might not be supported."

/-- The post-download size-rejection message of src/bot.py line 260. -/
def postSizeMsg (sz : Nat) : String :=
  "❌ Downloaded file too large (" ++ formatMB1 sz ++ " MB)."

/-- The catch-all error message of src/bot.py line 294:
`f"Error: str(e)[:100]..."` with the leading cross mark. -/
def caughtErrorMsg (e : String) : String :=
  "❌ Error: " ++ takeChars 100 e ++ "..."

/-- Text of the Python `AttributeError` raised at src/bot.py line 217 when
the alternative extraction attempt returned `None` and the code calls
`info.get(...)` on it. -/
def noneAttrErrText : String :=
  "\x27NoneType\x27 object has no attribute \x27get\x27"

/-- The primary yt-dlp format preference (src/bot.py line 125), chosen by
media type. -/
def primary_format (mt : String) : String :=
  if mt = "video" then "best[height<=480][ext=mp4]/best[ext=mp4]/best"
  else "bestaudio[ext=m4a]/bestaudio"

/-- The degraded fallback format preference (src/bot.py lines 195 and 242). -/
def worst_format (mt : String) : String :=
  if mt = "video" then "worst[ext=mp4]/worst" else "worstaudio/worst"

/-- Instantiation of the output template
`DOWNLOAD_DIR/%(id)s_mediatype.%(ext)s` of src/bot.py line 126. -/
def outPath (vid mt ext : String) : String :=
  DOWNLOAD_DIR ++ "/" ++ vid ++ "_" ++ mt ++ "." ++ ext

/-- The fields of the yt-dlp info dictionary that src/bot.py reads. -/
structure MediaInfo where
  id : String
  title : Option String
  uploader : Option String
  filesize : Option Nat
  filesize_approx : Option Nat
  /-- Extension of the stream selected at probe time; `prepare_filename`
  substitutes it into the output template. -/
  ext : String
deriving DecidableEq

/-- `ydl.prepare_filename(info)` (src/bot.py lines 236 and 246): the
output template instantiated with the probe-time id and extension. -/
def prepare_filename (i : MediaInfo) (mt : String) : String :=
  outPath i.id mt i.ext

/-- Outcome of one `extract_info(url, download=False)` call: it may raise
(carrying the upstream cause text — an age/login/privacy restriction or
a generic unavailability), return a falsy (`None`) info object (as
yt-dlp does under `ignoreerrors`), or return a populated info
dictionary.  src/bot.py lines 204-214 catch every raised cause with the
same handler, using the cause text only for logging. -/
inductive ExtractResult
  | raised (cause : String)
  | retNone
  | ok (i : MediaInfo)
deriving DecidableEq

/-- Environment of one `download_and_send_media` run: the outcome of each
external call the body makes.  `dl_wrote` / `dl_ext` describe the file
written by whichever `ydl.download` call returned without raising: the
extraction engine re-resolves the format at download time and fills the
`%(ext)s` placeholder of the output template with the extension of the
format it actually downloaded, which need not equal the probe-time
extension recorded in the info dictionary (in particular the fallback
download deliberately requests a different, worst-quality format).  A
download call that raises is taken to write nothing. -/
structure Env where
  /-- First `extract_info` attempt, with the primary options (line 183). -/
  extract_primary : ExtractResult
  /-- Alternative `extract_info` attempt (line 206). -/
  extract_alt : ExtractResult
  /-- Whether `ydl.download([url])` with the primary format raises (line 235). -/
  primary_download_raises : Bool
  /-- Whether the fallback `download([url])` with the worst format raises (line 245). -/
  fallback_download_raises : Bool
  /-- `str(e)` of the exception escaping the download block, if any. -/
  download_error_text : String
  /-- Whether the non-raising download call wrote a file. -/
  dl_wrote : Bool
  /-- Extension of the file the download wrote. -/
  dl_ext : String
  /-- `os.path.getsize(file_path)`: true on-disk size of the staged file. -/
  getsize : Nat
  /-- Whether `send_video` / `send_audio` raises (lines 275-287). -/
  send_media_raises : Bool
  /-- `str(e)` of the exception escaping the upload call, if any. -/
  send_error_text : String
deriving DecidableEq

/-- Result of the probe section (src/bot.py lines 182-214). -/
inductive ProbeOutcome
  | failed
  | noneInfo
  | got (i : MediaInfo)
deriving DecidableEq

/-- The probe section of src/bot.py lines 182-214: the first attempt is
used when it returns a truthy info; a raise or a falsy info triggers the
alternative attempt; a raise there yields the terminal failure message,
while a falsy info from the alternative attempt is passed on unchecked
(and makes line 217 raise `AttributeError`). -/
def probeStep (env : Env) : ProbeOutcome :=
  match env.extract_primary with
  | .ok i => .got i
  | _ =>
    match env.extract_alt with
    | .ok i => .got i
    | .retNone => .noneInfo
    | .raised _ => .failed

/-- The effective byte count of src/bot.py line 217:
`info.get(filesize) or info.get(filesize_approx)`. -/
def effSize (i : MediaInfo) : Option Nat :=
  pyOrSize i.filesize i.filesize_approx

/-- The pre-download size check of src/bot.py line 218 as a standalone
decision: the pipeline halts (rejects) exactly when the effective byte
count is truthy and exceeds `MAX_FILE_SIZE`. -/
def size_check_pre_rejects (b : Option Nat) : Bool :=
  sizeTruthy b && decide (MAX_FILE_SIZE < b.getD 0)

/-- The size gate as claim C1 words it: ALLOW iff the byte count is
present and at most the ceiling (spec §8).  Stated from the claim, for
comparison with `size_check_pre_rejects`, which is taken from the code. -/
def specGateAllows (b : Option Nat) (ceiling : Nat) : Prop :=
  ∃ n, b = some n ∧ n ≤ ceiling

/-- State of `download_and_send_media` at the start of its `finally`
block: outcome flag, text of the status message (`none` once the status
message has been deleted on success), the format preferences passed to
download calls in order, the Python `file_path` variable, the staged
paths written during the body and still on disk, and whether an upload
was attempted. -/
structure BodyResult where
  success : Bool
  finalStatus : Option String
  fetchFormats : List String
  file_path : Option String
  disk : List String
  uploadInvoked : Bool
deriving DecidableEq

/-- Observable result of one full `download_and_send_media` run, after
the `finally` block. -/
structure RunResult where
  success : Bool
  finalStatus : Option String
  fetchFormats : List String
  stagedDuring : List String
  presentAfter : List String
  uploadInvoked : Bool
deriving DecidableEq

/-- Formats attempted by the download section: the primary preference,
then the worst-quality preference only when the primary call raised
(src/bot.py lines 234-246). -/
def attemptedFormats (env : Env) (mt : String) : List String :=
  if env.primary_download_raises = true then [primary_format mt, worst_format mt]
  else [primary_format mt]

/-- Paths written by the download section: the output template filled
with the extension of the actually-downloaded format, when a download
call returned and wrote a file. -/
def writtenDisk (env : Env) (mt : String) (info : MediaInfo) : List String :=
  if env.dl_wrote = true then [outPath info.id mt env.dl_ext] else []

/-- The download / post-check / upload section of src/bot.py lines
227-290.  If both download calls raise, the outer handler catches the
exception with `file_path` still unset.  Otherwise `file_path` is set by
`prepare_filename(info)` (probe-time extension); the existence check of
line 248 succeeds only when the written file is at that very path, i.e.
when the downloaded extension matches the probe-time one. -/
def downloadPhase (env : Env) (mt : String) (info : MediaInfo) : BodyResult :=
  if env.primary_download_raises = true ∧ env.fallback_download_raises = true then
    ⟨false, some (caughtErrorMsg env.download_error_text),
      attemptedFormats env mt, none, [], false⟩
  else if ¬ (env.dl_wrote = true ∧ env.dl_ext = info.ext) then
    ⟨false, some notSupportedMsg, attemptedFormats env mt,
      some (prepare_filename info mt), writtenDisk env mt info, false⟩
  else if MAX_FILE_SIZE < env.getsize then
    ⟨false, some (postSizeMsg env.getsize), attemptedFormats env mt,
      some (prepare_filename info mt), writtenDisk env mt info, false⟩
  else if env.send_media_raises = true then
    ⟨false, some (caughtErrorMsg env.send_error_text), attemptedFormats env mt,
      some (prepare_filename info mt), writtenDisk env mt info, true⟩
  else
    ⟨true, none, attemptedFormats env mt,
      some (prepare_filename info mt), writtenDisk env mt info, true⟩

/-- Body of `download_and_send_media` (src/bot.py lines 120-299), up to
but not including the `finally` block. -/
def pipelineBody (env : Env) (mt : String) : BodyResult :=
  match probeStep env with
  | .failed => ⟨false, some probeFailMsg, [], none, [], false⟩
  | .noneInfo => ⟨false, some (caughtErrorMsg noneAttrErrText), [], none, [], false⟩
  | .got info =>
    if size_check_pre_rejects (effSize info) then
      ⟨false, some (preSizeMsg ((effSize info).getD 0)), [], none, [], false⟩
    else downloadPhase env mt info

/-- The `finally` block of src/bot.py lines 301-306: when `file_path` is
set and a file exists at it, remove that file; absence is not an error. -/
def finallyCleanup : Option String → List String → List String
  | none, disk => disk
  | some p, disk => disk.filter (fun q => !(q == p))

/-- `download_and_send_media` from src/bot.py lines 115-306, as a pure
function of the run environment: the body followed by the `finally`
cleanup.  `stagedDuring` lists the staged paths written during the run,
`presentAfter` those still on disk when the call returns. -/
def download_and_send_media (env : Env) (mt : String) : RunResult :=
  ⟨(pipelineBody env mt).success,
   (pipelineBody env mt).finalStatus,
   (pipelineBody env mt).fetchFormats,
   (pipelineBody env mt).disk,
   finallyCleanup (pipelineBody env mt).file_path (pipelineBody env mt).disk,
   (pipelineBody env mt).uploadInvoked⟩

/-- Observable result of `handle_message`: the user-data url slot after
the call and the texts of the replies sent. -/
structure MsgOutcome where
  url_after : Option String
  replies : List String
deriving DecidableEq

/-- `handle_message` from src/bot.py lines 59-74: strip the text, reply
with an error when it is not a recognised URL, otherwise store it in the
session and offer the choice keyboard. -/
def handle_message (text : String) (url0 : Option String) : MsgOutcome :=
  if is_valid_youtube_url (pyStrip text) = false then
    ⟨url0, ["Please send a valid YouTube URL!"]⟩
  else
    ⟨some (pyStrip text), ["Choose download type:"]⟩

/-- Observable result of `button_handler`: the edits applied to the
pressed message, the standalone messages sent by the handler itself, the
pipeline runs performed in order (media type with their results), and the
user-data url slot after the call. -/
structure ButtonOutcome where
  edits : List String
  sent : List String
  runs : List (String × RunResult)
  url_after : Option String
deriving DecidableEq

/-- The `video_success` flag of src/bot.py lines 90-94: false unless the
video pipeline was invoked and succeeded. -/
def videoSuccessFlag (choice : String) (envV : Env) : Bool :=
  if choice = "download_video" ∨ choice = "download_both" then
    (download_and_send_media envV "video").success
  else false

/-- Whether `button_handler` invokes the audio pipeline (src/bot.py
lines 96-100): an audio choice, except that `download_both` skips audio
when the video leg failed. -/
def audioInvoked (choice : String) (envV : Env) : Bool :=
  if choice = "download_audio" ∨ choice = "download_both" then
    (if choice = "download_both" ∧ videoSuccessFlag choice envV = false then false
     else true)
  else false

/-- The `audio_success` flag of src/bot.py lines 91-100: false unless the
audio pipeline was invoked and succeeded. -/
def audioSuccessFlag (choice : String) (envV envA : Env) : Bool :=
  if audioInvoked choice envV = true then
    (download_and_send_media envA "audio").success
  else false

/-- The completion messages of src/bot.py lines 102-113 (an if / elif
chain on the choice and the two success flags). -/
def completionMsgs (choice : String) (envV envA : Env) : List String :=
  if choice = "download_video" ∧ videoSuccessFlag choice envV = true then
    ["Video download complete! ✅"]
  else if choice = "download_audio" ∧ audioSuccessFlag choice envV envA = true then
    ["Audio download complete! ✅"]
  else if choice = "download_both" then
    (if videoSuccessFlag choice envV = true ∧ audioSuccessFlag choice envV envA = true then
       ["Both downloads complete! ✅"]
     else if videoSuccessFlag choice envV = true ∨ audioSuccessFlag choice envV envA = true then
       ["Partial success - some downloads completed."]
     else ["All downloads failed. The video might be restricted."])
  else []

/-- `button_handler` from src/bot.py lines 76-113, with run environments
`envV` / `envA` for the potential video and audio pipeline runs.  The
handler reads the session url without ever clearing it; with a falsy url
it only edits the message.  The `await` of the video run completes before
any audio work starts, so the runs list is ordered; for `download_both`
the audio run is replaced by a skip notice when the video leg failed. -/
def button_handler (url0 : Option String) (choice : String)
    (envV envA : Env) : ButtonOutcome :=
  if pyTruthyStr url0 = false then
    ⟨["Please send the link again."], [], [], url0⟩
  else
    ⟨["Processing your request... ⚙️"],
     (if (choice = "download_audio" ∨ choice = "download_both") ∧
         choice = "download_both" ∧ videoSuccessFlag choice envV = false
      then ["Skipping audio since video failed."] else []) ++
     completionMsgs choice envV envA,
     (if choice = "download_video" ∨ choice = "download_both" then
        [("video", download_and_send_media envV "video")] else []) ++
     (if audioInvoked choice envV = true then
        [("audio", download_and_send_media envA "audio")] else []),
     url0⟩

/-- Handlers of the python-telegram-bot API that src/bot.py registers. -/
inductive TgHandler
  | command (name : String)
  | message
  | callback_query
deriving DecidableEq

/-- Actions `main` can perform against its process environment and the
python-telegram-bot API (`run_polling` / `run_webhook` are the API calls
that would start serving updates). -/
inductive MainAction
  | log_error (msg : String)
  | log_info (msg : String)
  | build_application
  | add (h : TgHandler)
  | run_polling
  | run_webhook
deriving DecidableEq

/-- `main` from src/bot.py lines 308-320, as the sequence of actions it
performs given the `TELEGRAM_BOT_TOKEN` value: with a falsy token it logs
an error and returns; otherwise it builds the application, registers the
four handlers, and returns — no `run_polling` or webhook call appears in
the source, so the sequence ends there. -/
def main (token : Option String) : List MainAction :=
  if pyTruthyStr token = false then
    [MainAction.log_error "TELEGRAM_BOT_TOKEN not set"]
  else
    [MainAction.log_info "Starting bot on Northflank...",
     MainAction.build_application,
     MainAction.add (TgHandler.command "start"),
     MainAction.add (TgHandler.command "help"),
     MainAction.add TgHandler.message,
     MainAction.add TgHandler.callback_query]

/-- Info dictionary with no size fields (neither `filesize` nor
`filesize_approx`). -/
def infoNoSize : MediaInfo :=
  ⟨"vidA", some "Title A", some "Up A", none, none, "mp4"⟩

/-- Environment: probe succeeds with `infoNoSize`, download writes a
40 MiB mp4, upload succeeds. -/
def envNoSize : Env :=
  { extract_primary := .ok infoNoSize
    extract_alt := .raised "unused"
    primary_download_raises := false
    fallback_download_raises := false
    download_error_text := ""
    dl_wrote := true
    dl_ext := "mp4"
    getsize := 40 * 1024 * 1024
    send_media_raises := false
    send_error_text := "" }

/-- Info dictionary reporting a 60 MiB `filesize`. -/
def info60 : MediaInfo :=
  ⟨"vidB", some "Title B", some "Up B", some (60 * 1024 * 1024), none, "mp4"⟩

/-- Environment: probe succeeds with a 60 MiB size estimate. -/
def env60 : Env :=
  { extract_primary := .ok info60
    extract_alt := .raised "unused"
    primary_download_raises := false
    fallback_download_raises := false
    download_error_text := ""
    dl_wrote := true
    dl_ext := "mp4"
    getsize := 60 * 1024 * 1024
    send_media_raises := false
    send_error_text := "" }

/-- Environment: both extraction attempts raise a RESTRICTED error
(age / login / privacy gate). -/
def envRestricted : Env :=
  { extract_primary := .raised "Sign in to confirm your age. This video may be inappropriate for some users."
    extract_alt := .raised "Sign in to confirm your age. This video may be inappropriate for some users."
    primary_download_raises := false
    fallback_download_raises := false
    download_error_text := ""
    dl_wrote := false
    dl_ext := ""
    getsize := 0
    send_media_raises := false
    send_error_text := "" }

/-- Environment: both extraction attempts raise a generic UNAVAILABLE
extraction error.  In the embedding the raised cause never reaches the
handler — src/bot.py lines 204-214 catch every exception alike — so this
record differs from `envRestricted` only in its documented reading. -/
def envUnavailable : Env :=
  { extract_primary := .raised "Video unavailable"
    extract_alt := .raised "Video unavailable"
    primary_download_raises := false
    fallback_download_raises := false
    download_error_text := ""
    dl_wrote := false
    dl_ext := ""
    getsize := 0
    send_media_raises := false
    send_error_text := "" }

/-- Info dictionary with a small reported size and probe-time extension
mp4. -/
def infoMp4 : MediaInfo :=
  ⟨"vidC", some "Title C", some "Up C", some (10 * 1024 * 1024), none, "mp4"⟩

/-- Environment: the primary-format download raises, the worst-format
fallback succeeds but downloads a format whose extension (3gp) differs
from the probe-time extension (mp4). -/
def envLeak : Env :=
  { extract_primary := .ok infoMp4
    extract_alt := .raised "unused"
    primary_download_raises := true
    fallback_download_raises := false
    download_error_text := "blocked format"
    dl_wrote := true
    dl_ext := "3gp"
    getsize := 10 * 1024 * 1024
    send_media_raises := false
    send_error_text := "" }

/-- Environment: probe succeeds, both the primary and the fallback
download calls raise. -/
def envBothRaise : Env :=
  { extract_primary := .ok infoMp4
    extract_alt := .raised "unused"
    primary_download_raises := true
    fallback_download_raises := true
    download_error_text := "HTTP 403"
    dl_wrote := false
    dl_ext := ""
    getsize := 0
    send_media_raises := false
    send_error_text := "" }

/-- Environment: the probe estimate (10 MiB) passes the pre-check, but
the file actually downloaded is 60 MiB. -/
def envPostBig : Env :=
  { extract_primary := .ok infoMp4
    extract_alt := .raised "unused"
    primary_download_raises := false
    fallback_download_raises := false
    download_error_text := ""
    dl_wrote := true
    dl_ext := "mp4"
    getsize := 60 * 1024 * 1024
    send_media_raises := false
    send_error_text := "" }

/-- Helper: the body stages at most one path — at most a single
instantiation of the output template is written. -/
theorem disk_le_one (env : Env) (mt : String) :
    (pipelineBody env mt).disk.length ≤ 1 := by
  cases hp : probeStep env with
  | failed => simp [pipelineBody, hp]
  | noneInfo => simp [pipelineBody, hp]
  | got i =>
    unfold pipelineBody
    simp only [hp]
    split
    · simp
    · unfold downloadPhase writtenDisk
      split_ifs <;> simp

/-- Helper: a run stages at most one file. -/
theorem stagedDuring_length_le_one (env : Env) (mt : String) :
    (download_and_send_media env mt).stagedDuring.length ≤ 1 :=
  disk_le_one env mt

/-- Helper: in the download phase, when the downloaded extension matches
the probe-time extension — so `file_path` names the written file — the
`finally` cleanup removes everything staged, whatever branch was taken. -/
theorem cleanup_body (env : Env) (mt : String) (i : MediaInfo)
    (he : env.dl_ext = i.ext) :
    finallyCleanup (downloadPhase env mt i).file_path
      (downloadPhase env mt i).disk = [] := by
  unfold downloadPhase
  split_ifs with h1 h2 h3 h4 <;>
    simp_all [finallyCleanup, writtenDisk, prepare_filename]

/-- Helper: when the downloaded extension matches the probe-time
extension, nothing the run staged is on disk after it returns, on every
exit path. -/
theorem cleanup_when_extension_matches (env : Env) (mt : String)
    (i : MediaInfo) (hp : probeStep env = .got i) (he : env.dl_ext = i.ext) :
    (download_and_send_media env mt).presentAfter = [] := by
  show finallyCleanup (pipelineBody env mt).file_path (pipelineBody env mt).disk = []
  unfold pipelineBody
  simp only [hp]
  split
  · simp [finallyCleanup]
  · exact cleanup_body env mt i he

/-- C1 counterexample: with the byte count absent, the pre-fetch size
check of src/bot.py line 218 does not reject — `envNoSize` reports no
size and the pipeline proceeds to fetching (and delivers a 40 MiB file)
— whereas the claim demands rejection whenever the byte count is
absent. -/
theorem size_gate_unknown_cex :
    size_check_pre_rejects none = false ∧
    ¬ specGateAllows none MAX_FILE_SIZE ∧
    (download_and_send_media envNoSize "video").fetchFormats ≠ [] ∧
    (download_and_send_media envNoSize "video").success = true := by
  refine ⟨rfl, ?_, by decide, by decide⟩
  rintro ⟨n, h, -⟩
  exact Option.noConfusion h

/-- C1 (amended): the pre-fetch size gate rejects exactly the requests
whose effective byte count is present, nonzero, and strictly above the
50 MiB ceiling; an absent (or zero, hence falsy) byte count is
optimistically allowed through to the fetch step.  When the gate
rejects, the pipeline halts with the size message and never invokes a
download. -/
theorem size_check_pre_correct :
    (∀ b : Option Nat, size_check_pre_rejects b = true ↔
      ∃ n, b = some n ∧ n ≠ 0 ∧ MAX_FILE_SIZE < n) ∧
    (∀ (env : Env) (mt : String) (i : MediaInfo), probeStep env = .got i →
      size_check_pre_rejects (effSize i) = true →
      (download_and_send_media env mt).fetchFormats = [] ∧
      (download_and_send_media env mt).success = false ∧
      (download_and_send_media env mt).finalStatus =
        some (preSizeMsg ((effSize i).getD 0))) := by
  constructor
  · intro b
    match b with
    | none => simp [size_check_pre_rejects, sizeTruthy]
    | some n =>
      simp [size_check_pre_rejects, sizeTruthy, and_assoc]
  · intro env mt i hp hrej
    unfold download_and_send_media pipelineBody
    rw [hp]
    simp [hrej, finallyCleanup]

/-- Witness for `size_check_pre_correct` at `env60`, whose probe reports
a 60 MiB estimate. -/
theorem size_check_pre_correct_witness :
    probeStep env60 = .got info60 ∧
    size_check_pre_rejects (effSize info60) = true ∧
    ((download_and_send_media env60 "video").fetchFormats = [] ∧
     (download_and_send_media env60 "video").success = false ∧
     (download_and_send_media env60 "video").finalStatus =
       some (preSizeMsg ((effSize info60).getD 0))) :=
  ⟨rfl, by decide,
   size_check_pre_correct.2 env60 "video" info60 rfl (by decide)⟩

/-- C4 counterexample: at a 60 MiB estimate the rejection message of
src/bot.py line 221 is rendered with one decimal digit — it contains
neither "60.00 MB" nor "60.00 MiB" — refuting the claimed two-decimal
format. -/
theorem size_message_two_decimal_cex :
    (download_and_send_media env60 "video").finalStatus =
      some "❌ File too large (60.0 MB). Max 50 MB." ∧
    strContains "60.00 MB" "❌ File too large (60.0 MB). Max 50 MB." = false ∧
    strContains "60.00 MiB" "❌ File too large (60.0 MB). Max 50 MB." = false := by
  refine ⟨by decide, by decide, by decide⟩

/-- C4 (amended): when the size gate rejects a known byte count, the
rejection message states the measured size in MiB to ONE-decimal
precision — the 60 MiB case yields a message containing "60.0 MB" — and
the pipeline does not proceed to fetching. -/
theorem size_message_one_decimal :
    (download_and_send_media env60 "video").finalStatus =
      some (preSizeMsg (60 * 1024 * 1024)) ∧
    strContains "60.0 MB" (preSizeMsg (60 * 1024 * 1024)) = true ∧
    (download_and_send_media env60 "video").fetchFormats = [] ∧
    (download_and_send_media env60 "video").success = false := by
  refine ⟨by decide, by decide, by decide, by decide⟩

/-- C3 counterexample: a RESTRICTED probe failure (`envRestricted`, an
age-gate cause) and an UNAVAILABLE probe failure (`envUnavailable`, a
generic cause) terminate with the same literal message — the two causes
are collapsed into one string, refuting the claim that the messages
differ. -/
theorem probe_error_messages_equal_cex :
    envRestricted ≠ envUnavailable ∧
    (download_and_send_media envRestricted "video").finalStatus =
      (download_and_send_media envUnavailable "video").finalStatus ∧
    (download_and_send_media envRestricted "video").finalStatus =
      some probeFailMsg := by
  refine ⟨by decide, by decide, by decide⟩

/-- C3 (amended): every probe failure — whatever cause the extraction
engine raised, restricted or unavailable — terminates with the single
literal `probeFailMsg` and no fetch attempt; the two causes share one
collapsed message rather than two distinguishable ones. -/
theorem probe_error_message_collapsed (env : Env) (mt : String)
    (h : probeStep env = .failed) :
    (download_and_send_media env mt).finalStatus = some probeFailMsg ∧
    (download_and_send_media env mt).success = false ∧
    (download_and_send_media env mt).fetchFormats = [] := by
  unfold download_and_send_media pipelineBody
  rw [h]
  simp [finallyCleanup]

/-- Witness for `probe_error_message_collapsed` at `envRestricted`. -/
theorem probe_error_message_collapsed_witness :
    probeStep envRestricted = .failed ∧
    ((download_and_send_media envRestricted "video").finalStatus =
       some probeFailMsg ∧
     (download_and_send_media envRestricted "video").success = false ∧
     (download_and_send_media envRestricted "video").fetchFormats = []) :=
  ⟨rfl, probe_error_message_collapsed envRestricted "video" rfl⟩

/-- C2 failing-input evaluation: in `envLeak` the primary download
raises, the worst-format fallback succeeds but writes
`downloads/vidC_video.3gp`, while `file_path = prepare_filename(info)`
is `downloads/vidC_video.mp4` from the probe-time extension; the
existence check of src/bot.py line 248 therefore fails, the run reports
a download failure, and the `finally` block finds nothing at
`file_path` — the staged file is still on disk when the run returns,
violating the claimed cleanup invariant (the at-most-one-staged-file
half of the claim does hold, see `stagedDuring_length_le_one`). -/
theorem staged_file_retained :
    (download_and_send_media envLeak "video").stagedDuring =
      ["downloads/vidC_video.3gp"] ∧
    (download_and_send_media envLeak "video").presentAfter =
      ["downloads/vidC_video.3gp"] ∧
    (download_and_send_media envLeak "video").finalStatus =
      some notSupportedMsg ∧
    (download_and_send_media envLeak "video").success = false := by
  refine ⟨by decide, by decide, by decide, by decide⟩

/-- C5: for a BOTH request with a stored URL, the video pipeline runs
first and reaches its terminal state before any audio work (the runs
list is ordered); when the video leg succeeds the audio run follows it,
and when the video leg fails the audio pipeline — and hence its fetch
step — is never invoked: a skip notice is sent instead. -/
theorem both_video_before_audio (url0 : Option String) (envV envA : Env)
    (h : pyTruthyStr url0 = true) :
    ((download_and_send_media envV "video").success = true →
      (button_handler url0 "download_both" envV envA).runs =
        [("video", download_and_send_media envV "video"),
         ("audio", download_and_send_media envA "audio")]) ∧
    ((download_and_send_media envV "video").success = false →
      (button_handler url0 "download_both" envV envA).runs =
        [("video", download_and_send_media envV "video")] ∧
      "Skipping audio since video failed." ∈
        (button_handler url0 "download_both" envV envA).sent) := by
  have hne : ¬ (("download_both" : String) = "download_video") := by decide
  constructor
  · intro hs
    simp [button_handler, h, audioInvoked, videoSuccessFlag, hne, hs]
  · intro hs
    simp [button_handler, h, audioInvoked, videoSuccessFlag, hne, hs]

/-- Witness for `both_video_before_audio`: with `env60` (a 60 MiB
estimate) the video leg fails at the pre-size check, so the BOTH press
performs only the video run and sends the skip notice. -/
theorem both_video_before_audio_witness :
    pyTruthyStr (some "https://youtu.be/w") = true ∧
    (download_and_send_media env60 "video").success = false ∧
    ((button_handler (some "https://youtu.be/w") "download_both" env60 env60).runs =
       [("video", download_and_send_media env60 "video")] ∧
     "Skipping audio since video failed." ∈
       (button_handler (some "https://youtu.be/w") "download_both" env60 env60).sent) :=
  ⟨by decide, by decide,
   (both_video_before_audio (some "https://youtu.be/w") env60 env60
     (by decide)).2 (by decide)⟩

/-- C6: when the primary-format download raises, exactly one retry is
made, against the worst-quality format preference; if the retry also
raises, the exception is caught at the pipeline boundary — the run
returns failure with the caught-error terminal message and nothing it
staged remains on disk — rather than propagating as an unhandled
fault. -/
theorem fallback_retry_once (env : Env) (mt : String) (i : MediaInfo)
    (hp : probeStep env = .got i)
    (hsz : size_check_pre_rejects (effSize i) = false)
    (hfail : env.primary_download_raises = true) :
    (download_and_send_media env mt).fetchFormats =
      [primary_format mt, worst_format mt] ∧
    (env.fallback_download_raises = true →
      (download_and_send_media env mt).success = false ∧
      (download_and_send_media env mt).finalStatus =
        some (caughtErrorMsg env.download_error_text) ∧
      (download_and_send_media env mt).presentAfter = []) := by
  constructor
  · show (pipelineBody env mt).fetchFormats = _
    unfold pipelineBody
    simp only [hp]
    rw [if_neg (by simp [hsz])]
    unfold downloadPhase
    split_ifs <;> simp [attemptedFormats, hfail]
  · intro hfb
    have hbody : pipelineBody env mt =
        ⟨false, some (caughtErrorMsg env.download_error_text),
          attemptedFormats env mt, none, [], false⟩ := by
      unfold pipelineBody
      simp only [hp]
      rw [if_neg (by simp [hsz])]
      unfold downloadPhase
      rw [if_pos ⟨hfail, hfb⟩]
    show (pipelineBody env mt).success = false ∧
      (pipelineBody env mt).finalStatus = _ ∧
      finallyCleanup (pipelineBody env mt).file_path (pipelineBody env mt).disk = []
    rw [hbody]
    exact ⟨rfl, rfl, rfl⟩

/-- Witness for `fallback_retry_once` at `envBothRaise`, where both the
primary and the fallback download raise. -/
theorem fallback_retry_once_witness :
    probeStep envBothRaise = .got infoMp4 ∧
    size_check_pre_rejects (effSize infoMp4) = false ∧
    envBothRaise.primary_download_raises = true ∧
    envBothRaise.fallback_download_raises = true ∧
    (download_and_send_media envBothRaise "video").fetchFormats =
      [primary_format "video", worst_format "video"] ∧
    (download_and_send_media envBothRaise "video").success = false ∧
    (download_and_send_media envBothRaise "video").finalStatus =
      some (caughtErrorMsg envBothRaise.download_error_text) ∧
    (download_and_send_media envBothRaise "video").presentAfter = [] :=
  ⟨rfl, by decide, rfl, rfl,
   (fallback_retry_once envBothRaise "video" infoMp4 rfl (by decide) rfl).1,
   (fallback_retry_once envBothRaise "video" infoMp4 rfl (by decide) rfl).2 rfl⟩

/-- C7: the post-download size check is recomputed against the staged
file's true on-disk size: no upload is ever attempted for a file above
the ceiling, whatever the probe estimate said; and a run that staged an
oversized file (under the matching extension that lets the run reach the
check) terminates rejected with the downloaded-too-large message, the
file removed. -/
theorem post_size_check_authoritative :
    (∀ (env : Env) (mt : String), MAX_FILE_SIZE < env.getsize →
      (download_and_send_media env mt).uploadInvoked = false) ∧
    (∀ (env : Env) (mt : String) (i : MediaInfo), probeStep env = .got i →
      size_check_pre_rejects (effSize i) = false →
      ¬ (env.primary_download_raises = true ∧
         env.fallback_download_raises = true) →
      env.dl_wrote = true → env.dl_ext = i.ext →
      MAX_FILE_SIZE < env.getsize →
      (download_and_send_media env mt).success = false ∧
      (download_and_send_media env mt).finalStatus =
        some (postSizeMsg env.getsize) ∧
      (download_and_send_media env mt).presentAfter = []) := by
  constructor
  · intro env mt hbig
    show (pipelineBody env mt).uploadInvoked = false
    cases hp : probeStep env with
    | failed => simp [pipelineBody, hp]
    | noneInfo => simp [pipelineBody, hp]
    | got i =>
      unfold pipelineBody
      simp only [hp]
      split
      · rfl
      · unfold downloadPhase
        split_ifs <;> rfl
  · intro env mt i hp hsz hnd hw he hbig
    have hbody : pipelineBody env mt =
        ⟨false, some (postSizeMsg env.getsize), attemptedFormats env mt,
          some (prepare_filename i mt), writtenDisk env mt i, false⟩ := by
      unfold pipelineBody
      simp only [hp]
      rw [if_neg (by simp [hsz])]
      unfold downloadPhase
      rw [if_neg hnd, if_neg (by simp [hw, he]), if_pos hbig]
    refine ⟨?_, ?_, ?_⟩
    · show (pipelineBody env mt).success = false
      rw [hbody]
    · show (pipelineBody env mt).finalStatus = _
      rw [hbody]
    · show finallyCleanup (pipelineBody env mt).file_path
        (pipelineBody env mt).disk = []
      rw [hbody]
      simp [finallyCleanup, writtenDisk, prepare_filename, he]

/-- Witness for `post_size_check_authoritative` at `envPostBig`: a
10 MiB probe estimate passes the pre-check, the downloaded file is
actually 60 MiB, and the run rejects it without uploading. -/
theorem post_size_check_authoritative_witness :
    MAX_FILE_SIZE < envPostBig.getsize ∧
    size_check_pre_rejects (effSize infoMp4) = false ∧
    (download_and_send_media envPostBig "video").uploadInvoked = false ∧
    (download_and_send_media envPostBig "video").success = false ∧
    (download_and_send_media envPostBig "video").finalStatus =
      some (postSizeMsg envPostBig.getsize) ∧
    (download_and_send_media envPostBig "video").presentAfter = [] :=
  ⟨by decide, by decide,
   post_size_check_authoritative.1 envPostBig "video" (by decide),
   (post_size_check_authoritative.2 envPostBig "video" infoMp4 rfl (by decide)
     (by decide) rfl rfl (by decide)).1,
   (post_size_check_authoritative.2 envPostBig "video" infoMp4 rfl (by decide)
     (by decide) rfl rfl (by decide)).2.1,
   (post_size_check_authoritative.2 envPostBig "video" infoMp4 rfl (by decide)
     (by decide) rfl rfl (by decide)).2.2⟩

/-- C8 counterexample: after `handle_message` stores the URL, a press
runs the pipeline, yet the session still holds the URL when the handler
returns, and a second press without any new link immediately runs the
pipeline again on the old URL — the stored URL is not consumed exactly
once. -/
theorem url_not_cleared_cex :
    (handle_message "https://youtu.be/abc" none).url_after =
      some "https://youtu.be/abc" ∧
    (button_handler (some "https://youtu.be/abc") "download_video"
        envRestricted envRestricted).url_after =
      some "https://youtu.be/abc" ∧
    (button_handler (some "https://youtu.be/abc") "download_video"
        envRestricted envRestricted).runs ≠ [] := by
  refine ⟨by decide, by decide, by decide⟩

/-- C8 (amended): `button_handler` reads the stored URL but never clears
it — the session after any press holds exactly what it held before — so
a further press with a truthy stored URL starts a fresh pipeline run on
that same old URL. -/
theorem url_retained (url0 : Option String) (choice : String)
    (envV envA : Env) :
    (button_handler url0 choice envV envA).url_after = url0 ∧
    (∀ u : String, pyTruthyStr (some u) = true →
      (button_handler (some u) "download_video" envV envA).runs =
        [("video", download_and_send_media envV "video")]) := by
  constructor
  · unfold button_handler
    split
    · rfl
    · rfl
  · intro u hu
    have hne : ¬ (("download_video" : String) = "download_audio") := by decide
    have hnb : ¬ (("download_video" : String) = "download_both") := by decide
    simp [button_handler, hu, audioInvoked, hne, hnb]

/-- Witness for `url_retained`: a concrete URL survives the press that
ran the pipeline on it. -/
theorem url_retained_witness :
    (button_handler (some "https://youtu.be/abc") "download_video"
        envNoSize envNoSize).url_after = some "https://youtu.be/abc" ∧
    pyTruthyStr (some "https://youtu.be/abc") = true ∧
    (button_handler (some "https://youtu.be/abc") "download_video"
        envNoSize envNoSize).runs =
      [("video", download_and_send_media envNoSize "video")] :=
  ⟨(url_retained (some "https://youtu.be/abc") "download_video"
      envNoSize envNoSize).1,
   by decide,
   (url_retained (some "https://youtu.be/abc") "download_video"
      envNoSize envNoSize).2 "https://youtu.be/abc" (by decide)⟩

/-- C9: a button press with no stored URL edits the message to ask the
user to send the link again and performs no pipeline run, no send, and
no state change; the embedded handler is a total function, so no fault
escapes. -/
theorem no_url_asks_again (choice : String) (envV envA : Env) :
    button_handler none choice envV envA =
      ⟨["Please send the link again."], [], [], none⟩ := by
  unfold button_handler
  rfl

/-- C10: `main` with a truthy token builds the application, registers
the four handlers (start, help, text-message, callback-query) and
returns; with a falsy token it logs the missing-token error and returns.
In both cases the action sequence contains no `run_polling` and no
`run_webhook`, so the process never starts serving updates. -/
theorem main_registers_and_returns (token : Option String) :
    main token =
      (if pyTruthyStr token = false then
        [MainAction.log_error "TELEGRAM_BOT_TOKEN not set"]
      else
        [MainAction.log_info "Starting bot on Northflank...",
         MainAction.build_application,
         MainAction.add (TgHandler.command "start"),
         MainAction.add (TgHandler.command "help"),
         MainAction.add TgHandler.message,
         MainAction.add TgHandler.callback_query]) ∧
    MainAction.run_polling ∉ main token ∧
    MainAction.run_webhook ∉ main token := by
  refine ⟨rfl, ?_, ?_⟩ <;>
    · unfold main
      split <;> decide

end VibeBot
